import Mathlib

/-!
Shallow embedding of the gbp4 garage-door controller (the door-control core
in the Go source, together with the home-automation adapter).

The controller owns two mutable fields, `currentDoorState` and
`movingStatus`.  Every operation of the source is embedded as a pure
function producing the updated controller together with the list of
externally observable effects it performs (status-topic publishes,
control-pin writes, sleeps, movement-timer spawns).  The MQTT client,
logger and channels of the Go struct carry no door state and are left to
the effect trace.
-/

/-- Pin levels of the GPIO library (rpio.High / rpio.Low). -/
inductive PinLevel where
  | High : PinLevel
  | Low : PinLevel
deriving DecidableEq, Repr

/-- DoorState enumeration from the source (DoorOpen, DoorClosed,
DoorOpening, DoorClosing, DoorUnknown). -/
inductive DoorState where
  | DoorOpen : DoorState
  | DoorClosed : DoorState
  | DoorOpening : DoorState
  | DoorClosing : DoorState
  | DoorUnknown : DoorState
deriving DecidableEq, Repr

open DoorState
open PinLevel

/-- The configuration fields of GarageControllerConfig that the embedded
operations consult: the control topic, the status topic, and the travel
delay in seconds. -/
structure Config where
  topicControl : String
  topicStatus : String
  travelDelay : Nat
deriving DecidableEq, Repr

/-- Mutable state of the GarageController: the two fields the state
machine owns and writes. -/
structure Controller where
  currentDoorState : DoorState
  movingStatus : Bool
deriving DecidableEq, Repr

/-- Externally observable effects of a controller operation: a publish
to a topic (with the retained flag and single-character payload), a write
to the control pin, a sleep in milliseconds, and spawning the movement
timer with the configured delay in seconds. -/
inductive Ev where
  | pub : String → Bool → String → Ev
  | writeControl : PinLevel → Ev
  | sleepMs : Nat → Ev
  | spawnTimer : Nat → Ev
deriving DecidableEq, Repr

/-- readState from the source: while movingStatus is true return the
current state unchanged; otherwise map the position pin level, High to
DoorOpen and Low to DoorClosed. -/
def readState (c : Controller) (pin : PinLevel) : DoorState :=
  if c.movingStatus then c.currentDoorState
  else if pin = High then DoorOpen
  else DoorClosed

/-- setState from the source: a no-op when the new state equals the
current one; otherwise update currentDoorState and publish the retained
single-character status code for the new value (the Go switch has no case
for DoorUnknown, so no publish happens for it). -/
def setState (cfg : Config) (c : Controller) (newState : DoorState) :
    Controller × List Ev :=
  if c.currentDoorState = newState then (c, [])
  else
    let c1 : Controller := { c with currentDoorState := newState }
    match c1.currentDoorState with
    | DoorOpen => (c1, [Ev.pub cfg.topicStatus true "O"])
    | DoorClosed => (c1, [Ev.pub cfg.topicStatus true "C"])
    | DoorOpening => (c1, [Ev.pub cfg.topicStatus true "U"])
    | DoorClosing => (c1, [Ev.pub cfg.topicStatus true "D"])
    | DoorUnknown => (c1, [])

/-- toggleDoor from the source: drive the control pin High, sleep 250 ms,
drive it Low. -/
def toggleDoor : List Ev :=
  [Ev.writeControl High, Ev.sleepMs 250, Ev.writeControl Low]

/-- OpenDoor from the source: a no-op unless currentDoorState is
DoorClosed; otherwise set movingStatus, transition to DoorOpening via
setState, pulse the actuator, and spawn the movement timer. -/
def OpenDoor (cfg : Config) (c : Controller) : Controller × List Ev :=
  if c.currentDoorState ≠ DoorClosed then (c, [])
  else
    let c1 : Controller := { c with movingStatus := true }
    let p := setState cfg c1 DoorOpening
    (p.1, p.2 ++ toggleDoor ++ [Ev.spawnTimer cfg.travelDelay])

/-- CloseDoor from the source: a no-op unless currentDoorState is
DoorOpen; otherwise set movingStatus, transition to DoorClosing via
setState, pulse the actuator, and spawn the movement timer. -/
def CloseDoor (cfg : Config) (c : Controller) : Controller × List Ev :=
  if c.currentDoorState ≠ DoorOpen then (c, [])
  else
    let c1 : Controller := { c with movingStatus := true }
    let p := setState cfg c1 DoorClosing
    (p.1, p.2 ++ toggleDoor ++ [Ev.spawnTimer cfg.travelDelay])

/-- The SetDefaultPublishHandler callback from the source: when the topic
is the control topic and the door is not moving, payload "O" dispatches
OpenDoor and payload "C" dispatches CloseDoor; everything else is dropped
(the Go switch has no default case). -/
def handleMessage (cfg : Config) (c : Controller) (topic payload : String) :
    Controller × List Ev :=
  if topic = cfg.topicControl ∧ c.movingStatus = false then
    if payload = "O" then OpenDoor cfg c
    else if payload = "C" then CloseDoor cfg c
    else (c, [])
  else (c, [])

/-- The inputs that drive one iteration of the controller after
construction: an inbound MQTT message, a sensor poll carrying the
position-pin level, and arrival of the movement-completion signal (the
timer goroutine always sends false on movingStatusChannel). -/
inductive Input where
  | message : String → String → Input
  | poll : PinLevel → Input
  | movementComplete : Input

/-- One controller step, combining the three entry points of the source:
the message callback; the Run-loop poll branch (setState of readState,
guarded by movingStatus being false); and the Run-loop channel receive,
which assigns the received value false to movingStatus. -/
def step (cfg : Config) (c : Controller) : Input → Controller × List Ev
  | Input.message topic payload => handleMessage cfg c topic payload
  | Input.poll pin =>
      if c.movingStatus then (c, []) else setState cfg c (readState c pin)
  | Input.movementComplete => ({ c with movingStatus := false }, [])

/-- The controller fields as NewGarageController initializes them:
currentDoorState DoorUnknown and movingStatus false. -/
def initController : Controller :=
  { currentDoorState := DoorUnknown, movingStatus := false }

/-- The end of NewGarageController: the first sensor read, fed through
setState, from the freshly initialized controller. -/
def construct (cfg : Config) (pin : PinLevel) : Controller × List Ev :=
  setState cfg initController (readState initController pin)

/-- Controller states reachable once construction (which performs the
first sensor read) has completed, closed under arbitrary sequences of
message, poll and movement-completion inputs. -/
inductive Reachable (cfg : Config) : Controller → Prop where
  | init : ∀ pin : PinLevel, Reachable cfg (construct cfg pin).1
  | next : ∀ (c : Controller) (i : Input),
      Reachable cfg c → Reachable cfg (step cfg c i).1

/-- Run a list of inputs from a controller state, collecting all effects. -/
def run (cfg : Config) (c : Controller) : List Input → Controller × List Ev
  | [] => (c, [])
  | i :: is =>
      let p := step cfg c i
      let q := run cfg p.1 is
      (q.1, p.2 ++ q.2)

/-- A request is accepted when it is a control-topic message that passes
both the callback's movingStatus guard and the state precondition of
OpenDoor respectively CloseDoor. -/
def acceptedRequest (cfg : Config) (c : Controller) : Input → Bool
  | Input.message topic payload =>
      topic == cfg.topicControl && !c.movingStatus &&
        ((payload == "O" && c.currentDoorState == DoorClosed) ||
         (payload == "C" && c.currentDoorState == DoorOpen))
  | _ => false

/-- Number of accepted requests along a run of the given inputs. -/
def acceptedCount (cfg : Config) (c : Controller) : List Input → Nat
  | [] => 0
  | i :: is =>
      (if acceptedRequest cfg c i then 1 else 0) +
        acceptedCount cfg (step cfg c i).1 is

/-- The sequence of control-pin writes within an effect list. -/
def controlWrites (evs : List Ev) : List PinLevel :=
  evs.filterMap fun e =>
    match e with
    | Ev.writeControl l => some l
    | _ => none

/-- Number of actuator pulses in an effect list: each pulse drives the
control pin High exactly once. -/
def pulseCount (evs : List Ev) : Nat :=
  (evs.filter fun e =>
    match e with
    | Ev.writeControl High => true
    | _ => false).length

/-- Number of publishes of the Opening status code in an effect list. -/
def openingPubCount (evs : List Ev) : Nat :=
  (evs.filter fun e =>
    match e with
    | Ev.pub _ _ p => p == "U"
    | _ => false).length

/-- Control-pin level after applying the writes of an effect list to a
starting level. -/
def finalLevel (l : PinLevel) (evs : List Ev) : PinLevel :=
  (controlWrites evs).foldl (fun _ w => w) l

/-- The status code the Go switch in setState publishes for each door
state; DoorUnknown has no case and hence no code. -/
def statusCode : DoorState → Option String
  | DoorOpen => some "O"
  | DoorClosed => some "C"
  | DoorOpening => some "U"
  | DoorClosing => some "D"
  | DoorUnknown => none

/-- A concrete configuration used for sanity witnesses. -/
def cfg0 : Config :=
  { topicControl := "garage/control", topicStatus := "garage/status",
    travelDelay := 10 }

section HomeKitAdapter

/-- The configuration fields of HomeKitConfig that the embedded adapter
callbacks consult. -/
structure HKConfig where
  topicControl : String
  topicStatus : String
deriving DecidableEq, Repr

/-- The accessory current-door-state values of the external HomeKit
characteristic library that the adapter assigns. -/
inductive HKCurrentDoorState where
  | CurrentDoorStateOpen : HKCurrentDoorState
  | CurrentDoorStateClosed : HKCurrentDoorState
  | CurrentDoorStateOpening : HKCurrentDoorState
  | CurrentDoorStateClosing : HKCurrentDoorState
deriving DecidableEq, Repr

/-- Modelled from the spec: the two target-door-state constants of the
external HomeKit characteristic library (not part of this repository);
per the accessory protocol, Open is 0 and Closed is 1, and the callback
receives a plain int. -/
def TargetDoorStateOpen : Int := 0

/-- Modelled from the spec: the closed target-door-state constant of the
external HomeKit characteristic library (not part of this repository). -/
def TargetDoorStateClosed : Int := 1

/-- Effects of an adapter callback: assigning the accessory
current-door-state characteristic, or publishing a payload to a topic
(non-retained, per the source's Publish call). -/
inductive HKEffect where
  | setCurrentDoorState : HKCurrentDoorState → HKEffect
  | pubControl : String → String → HKEffect
deriving DecidableEq, Repr

/-- The adapter's SetDefaultPublishHandler callback: on a status-topic
message, map the payload directly onto the accessory current-door-state
value; other payloads and topics produce nothing.  The callback reads no
adapter door state and is a pure function of the message. -/
def hkStatusMessage (cfg : HKConfig) (topic payload : String) :
    List HKEffect :=
  if topic = cfg.topicStatus then
    if payload = "O" then
      [HKEffect.setCurrentDoorState HKCurrentDoorState.CurrentDoorStateOpen]
    else if payload = "U" then
      [HKEffect.setCurrentDoorState HKCurrentDoorState.CurrentDoorStateOpening]
    else if payload = "D" then
      [HKEffect.setCurrentDoorState HKCurrentDoorState.CurrentDoorStateClosing]
    else if payload = "C" then
      [HKEffect.setCurrentDoorState HKCurrentDoorState.CurrentDoorStateClosed]
    else []
  else []

/-- The adapter's OnValueRemoteUpdate callback: for a recognized target
value, set the accessory current-door-state optimistically and publish
the single-character command to the control topic; any other value does
nothing (code stays empty).  The callback reads no adapter door state and
is a pure function of the received value. -/
def hkTargetUpdate (cfg : HKConfig) (value : Int) : List HKEffect :=
  if value = TargetDoorStateOpen then
    [HKEffect.setCurrentDoorState HKCurrentDoorState.CurrentDoorStateOpen,
     HKEffect.pubControl cfg.topicControl "O"]
  else if value = TargetDoorStateClosed then
    [HKEffect.setCurrentDoorState HKCurrentDoorState.CurrentDoorStateClosed,
     HKEffect.pubControl cfg.topicControl "C"]
  else []

/-- A concrete adapter configuration used for sanity witnesses. -/
def hkCfg0 : HKConfig :=
  { topicControl := "garage/control", topicStatus := "garage/status" }

end HomeKitAdapter

/-! ## Helper lemmas -/

/-- The controller returned by setState always carries the new state and
the unchanged moving flag. -/
theorem setState_fst (cfg : Config) (c : Controller) (s : DoorState) :
    (setState cfg c s).1 = { c with currentDoorState := s } := by
  cases c with
  | mk cur m =>
    simp only [setState]
    split
    · simp_all
    · cases s <;> rfl

/-- setState never writes the control pin. -/
theorem controlWrites_setState (cfg : Config) (c : Controller)
    (s : DoorState) : controlWrites (setState cfg c s).2 = [] := by
  simp only [setState]
  split
  · rfl
  · cases s <;> rfl

/-- Effects of setState when the new state differs and has a status
code. -/
theorem setState_snd_coded (cfg : Config) (c : Controller) (s : DoorState)
    (code : String) (hne : c.currentDoorState ≠ s)
    (hc : statusCode s = some code) :
    (setState cfg c s).2 = [Ev.pub cfg.topicStatus true code] := by
  simp only [setState, if_neg hne]
  cases s <;> simp_all [statusCode]

/-- OpenDoor when the door is closed: the full effect sequence. -/
theorem OpenDoor_closed (cfg : Config) (c : Controller)
    (h : c.currentDoorState = DoorClosed) :
    OpenDoor cfg c =
      ({ currentDoorState := DoorOpening, movingStatus := true },
       [Ev.pub cfg.topicStatus true "U", Ev.writeControl High,
        Ev.sleepMs 250, Ev.writeControl Low,
        Ev.spawnTimer cfg.travelDelay]) := by
  cases c with
  | mk cur m =>
    simp only at h
    subst h
    rfl

/-- OpenDoor when the door is not closed: a no-op. -/
theorem OpenDoor_not_closed (cfg : Config) (c : Controller)
    (h : c.currentDoorState ≠ DoorClosed) :
    OpenDoor cfg c = (c, []) := by
  simp [OpenDoor, h]

/-- CloseDoor when the door is open: the full effect sequence. -/
theorem CloseDoor_open (cfg : Config) (c : Controller)
    (h : c.currentDoorState = DoorOpen) :
    CloseDoor cfg c =
      ({ currentDoorState := DoorClosing, movingStatus := true },
       [Ev.pub cfg.topicStatus true "D", Ev.writeControl High,
        Ev.sleepMs 250, Ev.writeControl Low,
        Ev.spawnTimer cfg.travelDelay]) := by
  cases c with
  | mk cur m =>
    simp only at h
    subst h
    rfl

/-- CloseDoor when the door is not open: a no-op. -/
theorem CloseDoor_not_open (cfg : Config) (c : Controller)
    (h : c.currentDoorState ≠ DoorOpen) :
    CloseDoor cfg c = (c, []) := by
  simp [CloseDoor, h]

/-- While movingStatus holds, the message callback drops everything. -/
theorem handleMessage_moving (cfg : Config) (c : Controller)
    (topic payload : String) (h : c.movingStatus = true) :
    handleMessage cfg c topic payload = (c, []) := by
  simp [handleMessage, h]

/-- Messages on other topics are dropped. -/
theorem handleMessage_other_topic (cfg : Config) (c : Controller)
    (topic payload : String) (h : topic ≠ cfg.topicControl) :
    handleMessage cfg c topic payload = (c, []) := by
  simp [handleMessage, h]

/-- Unrecognized payloads on the control topic are dropped. -/
theorem handleMessage_other_payload (cfg : Config) (c : Controller)
    (topic payload : String) (hO : payload ≠ "O") (hC : payload ≠ "C") :
    handleMessage cfg c topic payload = (c, []) := by
  simp only [handleMessage, if_neg hO, if_neg hC]
  split <;> rfl

/-- Counting pulses distributes over concatenation. -/
theorem pulseCount_append (a b : List Ev) :
    pulseCount (a ++ b) = pulseCount a + pulseCount b := by
  simp [pulseCount, List.filter_append]

/-- setState emits no pulse. -/
theorem pulseCount_setState (cfg : Config) (c : Controller)
    (s : DoorState) : pulseCount (setState cfg c s).2 = 0 := by
  simp only [setState]
  split
  · rfl
  · cases s <;> rfl

/-- Each step emits exactly one pulse when it carries an accepted
Open/Close request, and none otherwise. -/
theorem pulseCount_step (cfg : Config) (c : Controller) (i : Input) :
    pulseCount (step cfg c i).2 =
      (if acceptedRequest cfg c i then 1 else 0) := by
  cases i with
  | message topic payload =>
    simp only [step, acceptedRequest]
    by_cases ht : topic = cfg.topicControl
    · by_cases hm : c.movingStatus = true
      · rw [handleMessage_moving cfg c topic payload hm]
        simp [hm, pulseCount]
      · rw [Bool.not_eq_true] at hm
        by_cases hO : payload = "O"
        · subst hO
          simp only [handleMessage, ht, hm, and_self, if_true, if_pos rfl]
          by_cases hs : c.currentDoorState = DoorClosed
          · rw [OpenDoor_closed cfg c hs]
            simp [ht, hm, hs, pulseCount]
          · rw [OpenDoor_not_closed cfg c hs]
            simp [ht, hm, hs, pulseCount]
        · by_cases hC : payload = "C"
          · subst hC
            simp only [handleMessage, ht, hm, and_self, if_true, if_neg hO,
              if_pos rfl]
            by_cases hs : c.currentDoorState = DoorOpen
            · rw [CloseDoor_open cfg c hs]
              simp [ht, hm, hs, hO, pulseCount]
            · rw [CloseDoor_not_open cfg c hs]
              simp [ht, hm, hs, hO, pulseCount]
          · rw [handleMessage_other_payload cfg c topic payload hO hC]
            simp [hO, hC, pulseCount]
    · rw [handleMessage_other_topic cfg c topic payload ht]
      simp [ht, pulseCount]
  | poll pin =>
    simp only [step, acceptedRequest]
    split
    · rfl
    · rw [pulseCount_setState]
      simp
  | movementComplete =>
    rfl

/-- Over any run, the number of pulses equals the number of accepted
requests. -/
theorem pulseCount_run (cfg : Config) (c : Controller)
    (inputs : List Input) :
    pulseCount (run cfg c inputs).2 = acceptedCount cfg c inputs := by
  induction inputs generalizing c with
  | nil => rfl
  | cons i is ih =>
    simp only [run, acceptedCount, pulseCount_append, pulseCount_step, ih]

/-- Exhaustive characterization of the controller state a step can
produce: unchanged, one of the two movement starts, the completion
assignment, or (when the door is idle) the sensor-settled state. -/
theorem step_fst_cases (cfg : Config) (c : Controller) (i : Input) :
    (step cfg c i).1 = c ∨
    (step cfg c i).1 =
      { currentDoorState := DoorOpening, movingStatus := true } ∨
    (step cfg c i).1 =
      { currentDoorState := DoorClosing, movingStatus := true } ∨
    (step cfg c i).1 = { c with movingStatus := false } ∨
    (c.movingStatus = false ∧
      ((step cfg c i).1 = { c with currentDoorState := DoorOpen } ∨
       (step cfg c i).1 = { c with currentDoorState := DoorClosed })) := by
  cases i with
  | message topic payload =>
    simp only [step]
    by_cases ht : topic = cfg.topicControl
    · by_cases hm : c.movingStatus = true
      · rw [handleMessage_moving cfg c topic payload hm]
        left; rfl
      · rw [Bool.not_eq_true] at hm
        by_cases hO : payload = "O"
        · subst hO
          simp only [handleMessage, ht, hm, and_self, if_true, if_pos rfl]
          by_cases hs : c.currentDoorState = DoorClosed
          · rw [OpenDoor_closed cfg c hs]
            right; left; rfl
          · rw [OpenDoor_not_closed cfg c hs]
            left; rfl
        · by_cases hC : payload = "C"
          · subst hC
            simp only [handleMessage, ht, hm, and_self, if_true, if_neg hO,
              if_pos rfl]
            by_cases hs : c.currentDoorState = DoorOpen
            · rw [CloseDoor_open cfg c hs]
              right; right; left; rfl
            · rw [CloseDoor_not_open cfg c hs]
              left; rfl
          · rw [handleMessage_other_payload cfg c topic payload hO hC]
            left; rfl
    · rw [handleMessage_other_topic cfg c topic payload ht]
      left; rfl
  | poll pin =>
    simp only [step]
    by_cases hm : c.movingStatus = true
    · rw [if_pos hm]
      left; rfl
    · rw [Bool.not_eq_true] at hm
      rw [if_neg (by simp [hm])]
      rw [setState_fst]
      right; right; right; right
      refine ⟨hm, ?_⟩
      simp only [readState, hm, Bool.false_eq_true, if_false]
      cases pin with
      | High => left; rfl
      | Low => right; simp
  | movementComplete =>
    right; right; right; left; rfl

/-- Every step preserves the implication from movingStatus to a
transient door state. -/
theorem movingInv_step (cfg : Config) (c : Controller) (i : Input)
    (hc : c.movingStatus = true →
      c.currentDoorState = DoorOpening ∨ c.currentDoorState = DoorClosing) :
    (step cfg c i).1.movingStatus = true →
      (step cfg c i).1.currentDoorState = DoorOpening ∨
      (step cfg c i).1.currentDoorState = DoorClosing := by
  rcases step_fst_cases cfg c i with h | h | h | h | ⟨hm, h | h⟩ <;>
    rw [h] <;> simp_all

/-- Every step preserves that the door state is not DoorUnknown. -/
theorem notUnknown_step (cfg : Config) (c : Controller) (i : Input)
    (hc : c.currentDoorState ≠ DoorUnknown) :
    (step cfg c i).1.currentDoorState ≠ DoorUnknown := by
  rcases step_fst_cases cfg c i with h | h | h | h | ⟨hm, h | h⟩ <;>
    rw [h] <;> simp_all

/-- The controller state construction leaves behind: the first sensor
read, settled through setState, with the moving flag still false. -/
theorem construct_fst (cfg : Config) (pin : PinLevel) :
    (construct cfg pin).1 =
      { currentDoorState := if pin = High then DoorOpen else DoorClosed,
        movingStatus := false } := by
  cases pin <;> rfl

/-- No reachable state carries DoorUnknown. -/
theorem reachable_not_unknown (cfg : Config) (c : Controller)
    (h : Reachable cfg c) : c.currentDoorState ≠ DoorUnknown := by
  induction h with
  | init pin =>
    rw [construct_fst]
    cases pin <;> simp
  | next c i hr ih => exact notUnknown_step cfg c i ih

/-- In every reachable state, a raised moving flag means the door state
is transient. -/
theorem reachable_movingInv (cfg : Config) (c : Controller)
    (h : Reachable cfg c) :
    c.movingStatus = true →
      c.currentDoorState = DoorOpening ∨
      c.currentDoorState = DoorClosing := by
  induction h with
  | init pin =>
    rw [construct_fst]
    simp
  | next c i hr ih => exact movingInv_step cfg c i ih

/-- The effect list of a step is empty, a lone status publish, or a
status publish followed by the actuator pulse and the timer spawn. -/
theorem step_snd_cases (cfg : Config) (c : Controller) (i : Input) :
    (step cfg c i).2 = [] ∨
    (∃ code, (step cfg c i).2 = [Ev.pub cfg.topicStatus true code]) ∨
    (∃ code, (step cfg c i).2 =
      [Ev.pub cfg.topicStatus true code, Ev.writeControl High,
       Ev.sleepMs 250, Ev.writeControl Low,
       Ev.spawnTimer cfg.travelDelay]) := by
  cases i with
  | message topic payload =>
    simp only [step]
    by_cases ht : topic = cfg.topicControl
    · by_cases hm : c.movingStatus = true
      · rw [handleMessage_moving cfg c topic payload hm]
        left; rfl
      · rw [Bool.not_eq_true] at hm
        by_cases hO : payload = "O"
        · subst hO
          simp only [handleMessage, ht, hm, and_self, if_true, if_pos rfl]
          by_cases hs : c.currentDoorState = DoorClosed
          · rw [OpenDoor_closed cfg c hs]
            right; right; exact ⟨"U", rfl⟩
          · rw [OpenDoor_not_closed cfg c hs]
            left; rfl
        · by_cases hC : payload = "C"
          · subst hC
            simp only [handleMessage, ht, hm, and_self, if_true, if_neg hO,
              if_pos rfl]
            by_cases hs : c.currentDoorState = DoorOpen
            · rw [CloseDoor_open cfg c hs]
              right; right; exact ⟨"D", rfl⟩
            · rw [CloseDoor_not_open cfg c hs]
              left; rfl
          · rw [handleMessage_other_payload cfg c topic payload hO hC]
            left; rfl
    · rw [handleMessage_other_topic cfg c topic payload ht]
      left; rfl
  | poll pin =>
    simp only [step]
    split
    · left; rfl
    · simp only [setState]
      split
      · left; rfl
      · cases h : readState c pin
        · right; left; exact ⟨"O", rfl⟩
        · right; left; exact ⟨"C", rfl⟩
        · right; left; exact ⟨"U", rfl⟩
        · right; left; exact ⟨"D", rfl⟩
        · left; rfl
  | movementComplete =>
    left; rfl

/-! ## Claim theorems -/

/-- Claim C1: over every input sequence, the actuator is pulsed exactly
once per accepted Open/Close request (hence at most once per accepted
request), no step taken while movingStatus is true emits a pulse, and a
RequestOpen immediately followed by a second RequestOpen before any
completion signal yields exactly one pulse, exactly one publish of the
Opening code, and a single settled Opening/moving state. -/
theorem pulse_per_accepted_request (cfg : Config) :
    (∀ (c : Controller) (inputs : List Input),
        pulseCount (run cfg c inputs).2 = acceptedCount cfg c inputs) ∧
    (∀ (c : Controller) (i : Input), c.movingStatus = true →
        pulseCount (step cfg c i).2 = 0) ∧
    (∀ c : Controller, c.currentDoorState = DoorClosed →
        c.movingStatus = false →
        pulseCount (run cfg c
          [Input.message cfg.topicControl "O",
           Input.message cfg.topicControl "O"]).2 = 1 ∧
        openingPubCount (run cfg c
          [Input.message cfg.topicControl "O",
           Input.message cfg.topicControl "O"]).2 = 1 ∧
        (run cfg c
          [Input.message cfg.topicControl "O",
           Input.message cfg.topicControl "O"]).1 =
          { currentDoorState := DoorOpening, movingStatus := true }) := by
  refine ⟨pulseCount_run cfg, ?_, ?_⟩
  · intro c i h
    rw [pulseCount_step]
    cases i <;> simp [acceptedRequest, h]
  · intro c h1 h2
    have e1 : step cfg c (Input.message cfg.topicControl "O") =
        ({ currentDoorState := DoorOpening, movingStatus := true },
         [Ev.pub cfg.topicStatus true "U", Ev.writeControl High,
          Ev.sleepMs 250, Ev.writeControl Low,
          Ev.spawnTimer cfg.travelDelay]) := by
      show handleMessage cfg c cfg.topicControl "O" = _
      simp [handleMessage, h2, OpenDoor_closed cfg c h1]
    have e2 : step cfg
        ({ currentDoorState := DoorOpening, movingStatus := true } :
          Controller)
        (Input.message cfg.topicControl "O") =
        ({ currentDoorState := DoorOpening, movingStatus := true }, []) :=
      handleMessage_moving cfg _ _ _ rfl
    refine ⟨?_, ?_, ?_⟩ <;>
      simp [run, e1, e2, pulseCount, openingPubCount]

/-- Sanity witness for claim C1 at a concrete closed idle controller. -/
theorem pulse_per_accepted_request_witness :
    pulseCount (run cfg0
      { currentDoorState := DoorClosed, movingStatus := false }
      [Input.message cfg0.topicControl "O",
       Input.message cfg0.topicControl "O"]).2 = 1 :=
  ((pulse_per_accepted_request cfg0).2.2 _ rfl rfl).1

/-- Claim C2: OpenDoor is a no-op unless the door is Closed, and when it
is Closed it raises movingStatus, transitions to Opening with one
retained publish, emits exactly one actuator pulse, and spawns one
movement timer with the configured travel delay; CloseDoor is symmetric
from Open. -/
theorem requestOpen_requestClose_spec (cfg : Config) (c : Controller) :
    (c.currentDoorState ≠ DoorClosed → OpenDoor cfg c = (c, [])) ∧
    (c.currentDoorState = DoorClosed →
      OpenDoor cfg c =
        ({ currentDoorState := DoorOpening, movingStatus := true },
         [Ev.pub cfg.topicStatus true "U", Ev.writeControl High,
          Ev.sleepMs 250, Ev.writeControl Low,
          Ev.spawnTimer cfg.travelDelay])) ∧
    (c.currentDoorState ≠ DoorOpen → CloseDoor cfg c = (c, [])) ∧
    (c.currentDoorState = DoorOpen →
      CloseDoor cfg c =
        ({ currentDoorState := DoorClosing, movingStatus := true },
         [Ev.pub cfg.topicStatus true "D", Ev.writeControl High,
          Ev.sleepMs 250, Ev.writeControl Low,
          Ev.spawnTimer cfg.travelDelay])) :=
  ⟨OpenDoor_not_closed cfg c, OpenDoor_closed cfg c,
   CloseDoor_not_open cfg c, CloseDoor_open cfg c⟩

/-- Sanity witness for claim C2 at a concrete closed idle controller. -/
theorem requestOpen_requestClose_spec_witness :
    OpenDoor cfg0 { currentDoorState := DoorClosed, movingStatus := false } =
      ({ currentDoorState := DoorOpening, movingStatus := true },
       [Ev.pub cfg0.topicStatus true "U", Ev.writeControl High,
        Ev.sleepMs 250, Ev.writeControl Low,
        Ev.spawnTimer cfg0.travelDelay]) :=
  (requestOpen_requestClose_spec cfg0 _).2.1 rfl

/-- Claim C3 counterexample: calling setState with DoorUnknown from a
differing state updates currentDoorState but publishes nothing, so
"when the value differs it publishes exactly one retained
single-character code" fails at newState = DoorUnknown. -/
theorem setState_unknown_counterexample :
    ({ currentDoorState := DoorOpen, movingStatus := false } :
      Controller).currentDoorState ≠ DoorUnknown ∧
    (setState cfg0
      { currentDoorState := DoorOpen, movingStatus := false }
      DoorUnknown).1 =
      { currentDoorState := DoorUnknown, movingStatus := false } ∧
    (setState cfg0
      { currentDoorState := DoorOpen, movingStatus := false }
      DoorUnknown).2 = [] :=
  ⟨by decide, rfl, rfl⟩

/-- Claim C3 (amended): setState is idempotent — equal value means no
change and no publish, and an immediate second call with the same value
publishes nothing, so two same-value calls publish at most one message;
a differing value updates currentDoorState and publishes exactly one
retained status code whenever the value has one (O, C, U, D), while the
uncoded DoorUnknown updates silently. -/
theorem setState_idempotent_publish (cfg : Config) (c : Controller)
    (s : DoorState) :
    (c.currentDoorState = s → setState cfg c s = (c, [])) ∧
    (∀ code, c.currentDoorState ≠ s → statusCode s = some code →
        setState cfg c s =
          ({ c with currentDoorState := s },
           [Ev.pub cfg.topicStatus true code])) ∧
    (c.currentDoorState ≠ s → statusCode s = none →
        setState cfg c s = ({ c with currentDoorState := s }, [])) ∧
    setState cfg (setState cfg c s).1 s = ((setState cfg c s).1, []) := by
  refine ⟨?_, ?_, ?_, ?_⟩
  · intro h
    simp [setState, h]
  · intro code hne hc
    cases s <;> simp_all [setState, statusCode]
  · intro hne hc
    cases s <;> simp_all [setState, statusCode]
  · rw [setState_fst]
    simp [setState]

/-- Sanity witness for claim C3 at a concrete transition. -/
theorem setState_idempotent_publish_witness :
    setState cfg0 { currentDoorState := DoorClosed, movingStatus := false }
      DoorOpen =
      ({ currentDoorState := DoorOpen, movingStatus := false },
       [Ev.pub cfg0.topicStatus true "O"]) :=
  (setState_idempotent_publish cfg0 _ _).2.1 "O" (by decide) rfl

/-- Claim C4: the movement-completion signal clears movingStatus and
changes nothing else of the controller state, and the very next sensor
poll settles currentDoorState to the value the position pin reports,
whatever the state (and hence the triggering command) was. -/
theorem movementComplete_frame_and_settle (cfg : Config) (c : Controller)
    (pin : PinLevel) :
    step cfg c Input.movementComplete =
      ({ currentDoorState := c.currentDoorState, movingStatus := false },
       []) ∧
    (step cfg (step cfg c Input.movementComplete).1
        (Input.poll pin)).1.currentDoorState =
      (if pin = High then DoorOpen else DoorClosed) := by
  refine ⟨rfl, ?_⟩
  simp [step, setState_fst, readState]

/-- Claim C5: readState returns the held state unchanged while moving,
maps the pin level High to Open and Low to Closed when idle, and on any
reachable controller state never returns DoorUnknown. -/
theorem readState_spec (cfg : Config) (c : Controller) (pin : PinLevel) :
    (c.movingStatus = true → readState c pin = c.currentDoorState) ∧
    (c.movingStatus = false →
        readState c pin = (if pin = High then DoorOpen else DoorClosed)) ∧
    (Reachable cfg c → readState c pin ≠ DoorUnknown) := by
  refine ⟨?_, ?_, ?_⟩
  · intro h
    simp [readState, h]
  · intro h
    simp [readState, h]
  · intro hr
    have hu := reachable_not_unknown cfg c hr
    by_cases h : c.movingStatus = true
    · simpa [readState, h] using hu
    · rw [Bool.not_eq_true] at h
      simp only [readState, h, Bool.false_eq_true, if_false]
      split <;> simp

/-- Sanity witness for claim C5 at a concrete reachable state. -/
theorem readState_spec_witness :
    readState (construct cfg0 Low).1 Low ≠ DoorUnknown :=
  (readState_spec cfg0 _ Low).2.2 (Reachable.init Low)

/-- Claim C6: DoorUnknown is the initial state of the freshly
constructed controller, the first sensor read during construction leaves
it, every reachable state thereafter lies in the four known states, and
every operation preserves not being DoorUnknown. -/
theorem unknown_initial_only (cfg : Config) :
    initController.currentDoorState = DoorUnknown ∧
    (∀ pin, (construct cfg pin).1.currentDoorState ≠ DoorUnknown) ∧
    (∀ c, Reachable cfg c →
        (c.currentDoorState = DoorOpen ∨ c.currentDoorState = DoorClosed ∨
         c.currentDoorState = DoorOpening ∨
         c.currentDoorState = DoorClosing)) ∧
    (∀ (c : Controller) (i : Input), c.currentDoorState ≠ DoorUnknown →
        (step cfg c i).1.currentDoorState ≠ DoorUnknown) := by
  refine ⟨rfl, ?_, ?_, notUnknown_step cfg⟩
  · intro pin
    rw [construct_fst]
    cases pin <;> simp
  · intro c hr
    have hu := reachable_not_unknown cfg c hr
    cases h : c.currentDoorState <;> simp_all

/-- Sanity witness for claim C6 at a concrete reachable state. -/
theorem unknown_initial_only_witness :
    (construct cfg0 Low).1.currentDoorState = DoorOpen ∨
    (construct cfg0 Low).1.currentDoorState = DoorClosed ∨
    (construct cfg0 Low).1.currentDoorState = DoorOpening ∨
    (construct cfg0 Low).1.currentDoorState = DoorClosing :=
  (unknown_initial_only cfg0).2.2.1 _ (Reachable.init Low)

/-- Claim C7: the pulse drives the control pin High, holds 250 ms, then
drives it Low; setState never writes the pin; any step either writes
nothing or exactly the pulse's High-then-Low pair, so only the pulse
operation writes the pin; and after any step the pin is back at the idle
Low level. -/
theorem pulse_protocol_only_writer (cfg : Config) (c : Controller)
    (i : Input) (s : DoorState) :
    toggleDoor =
      [Ev.writeControl High, Ev.sleepMs 250, Ev.writeControl Low] ∧
    controlWrites (setState cfg c s).2 = [] ∧
    (controlWrites (step cfg c i).2 = [] ∨
      controlWrites (step cfg c i).2 = controlWrites toggleDoor) ∧
    finalLevel Low (step cfg c i).2 = Low := by
  refine ⟨rfl, controlWrites_setState cfg c s, ?_, ?_⟩
  · rcases step_snd_cases cfg c i with h | ⟨code, h⟩ | ⟨code, h⟩ <;>
      rw [h]
    · left; rfl
    · left; rfl
    · right; rfl
  · rcases step_snd_cases cfg c i with h | ⟨code, h⟩ | ⟨code, h⟩ <;>
      rw [h] <;> rfl

/-- Claim C8: on the control topic with the door idle, payload O
dispatches OpenDoor and payload C dispatches CloseDoor; any other
payload, any other topic, and any message while moving is dropped with
the state unchanged and no effects — nothing is ever sent back. -/
theorem command_handler_dispatch (cfg : Config) (c : Controller)
    (topic payload : String) :
    (topic = cfg.topicControl → c.movingStatus = false →
        handleMessage cfg c topic "O" = OpenDoor cfg c ∧
        handleMessage cfg c topic "C" = CloseDoor cfg c ∧
        (payload ≠ "O" → payload ≠ "C" →
          handleMessage cfg c topic payload = (c, []))) ∧
    (c.movingStatus = true → handleMessage cfg c topic payload = (c, [])) ∧
    (topic ≠ cfg.topicControl →
        handleMessage cfg c topic payload = (c, [])) := by
  refine ⟨?_, handleMessage_moving cfg c topic payload,
    handleMessage_other_topic cfg c topic payload⟩
  intro ht hm
  refine ⟨?_, ?_, handleMessage_other_payload cfg c topic payload⟩
  · simp [handleMessage, ht, hm]
  · simp [handleMessage, ht, hm]

/-- Sanity witness for claim C8: an unrecognized payload is dropped. -/
theorem command_handler_dispatch_witness :
    handleMessage cfg0
      { currentDoorState := DoorClosed, movingStatus := false }
      cfg0.topicControl "X" =
      ({ currentDoorState := DoorClosed, movingStatus := false }, []) :=
  ((command_handler_dispatch cfg0 _ cfg0.topicControl "X").1 rfl rfl).2.2
    (by decide) (by decide)

/-- Claim C9: in every reachable state a raised movingStatus implies the
door state is Opening or Closing, and every single operation preserves
this implication. -/
theorem moving_implies_transient (cfg : Config) :
    (∀ c, Reachable cfg c → c.movingStatus = true →
        c.currentDoorState = DoorOpening ∨
        c.currentDoorState = DoorClosing) ∧
    (∀ (c : Controller) (i : Input),
        (c.movingStatus = true →
          c.currentDoorState = DoorOpening ∨
          c.currentDoorState = DoorClosing) →
        (step cfg c i).1.movingStatus = true →
          (step cfg c i).1.currentDoorState = DoorOpening ∨
          (step cfg c i).1.currentDoorState = DoorClosing) :=
  ⟨fun c hr => reachable_movingInv cfg c hr,
   fun c i hc => movingInv_step cfg c i hc⟩

/-- Sanity witness for claim C9 at a concrete moving state. -/
theorem moving_implies_transient_witness :
    (step cfg0 (construct cfg0 Low).1
        (Input.message cfg0.topicControl "O")).1.currentDoorState =
      DoorOpening ∨
    (step cfg0 (construct cfg0 Low).1
        (Input.message cfg0.topicControl "O")).1.currentDoorState =
      DoorClosing :=
  (moving_implies_transient cfg0).1 _
    (Reachable.next _ _ (Reachable.init Low)) (by decide)

/-- Claim C10: the home-automation adapter is a stateless translator —
its two callbacks are pure functions of the incoming message or value,
with no door state of their own; each status payload O, U, D, C maps
directly to the corresponding accessory current-door-state value, each
recognized target value publishes exactly the single-character command to
the control topic, and everything else produces no effects. -/
theorem homekit_adapter_stateless (cfg : HKConfig)
    (topic payload : String) (value : Int) :
    (topic = cfg.topicStatus →
        hkStatusMessage cfg topic "O" =
          [HKEffect.setCurrentDoorState
            HKCurrentDoorState.CurrentDoorStateOpen] ∧
        hkStatusMessage cfg topic "U" =
          [HKEffect.setCurrentDoorState
            HKCurrentDoorState.CurrentDoorStateOpening] ∧
        hkStatusMessage cfg topic "D" =
          [HKEffect.setCurrentDoorState
            HKCurrentDoorState.CurrentDoorStateClosing] ∧
        hkStatusMessage cfg topic "C" =
          [HKEffect.setCurrentDoorState
            HKCurrentDoorState.CurrentDoorStateClosed] ∧
        (payload ≠ "O" → payload ≠ "U" → payload ≠ "D" → payload ≠ "C" →
          hkStatusMessage cfg topic payload = [])) ∧
    (topic ≠ cfg.topicStatus → hkStatusMessage cfg topic payload = []) ∧
    hkTargetUpdate cfg TargetDoorStateOpen =
      [HKEffect.setCurrentDoorState HKCurrentDoorState.CurrentDoorStateOpen,
       HKEffect.pubControl cfg.topicControl "O"] ∧
    hkTargetUpdate cfg TargetDoorStateClosed =
      [HKEffect.setCurrentDoorState
        HKCurrentDoorState.CurrentDoorStateClosed,
       HKEffect.pubControl cfg.topicControl "C"] ∧
    (value ≠ TargetDoorStateOpen → value ≠ TargetDoorStateClosed →
        hkTargetUpdate cfg value = []) := by
  refine ⟨?_, ?_, ?_, ?_, ?_⟩
  · intro ht
    refine ⟨by simp [hkStatusMessage, ht], by simp [hkStatusMessage, ht],
      by simp [hkStatusMessage, ht], by simp [hkStatusMessage, ht], ?_⟩
    intro h1 h2 h3 h4
    simp [hkStatusMessage, ht, h1, h2, h3, h4]
  · intro ht
    simp [hkStatusMessage, ht]
  · norm_num [hkTargetUpdate, TargetDoorStateOpen, TargetDoorStateClosed]
  · norm_num [hkTargetUpdate, TargetDoorStateOpen, TargetDoorStateClosed]
  · intro h1 h2
    simp [hkTargetUpdate, h1, h2]

/-- Sanity witness for claim C10 at the concrete adapter configuration. -/
theorem homekit_adapter_stateless_witness :
    hkStatusMessage hkCfg0 hkCfg0.topicStatus "O" =
      [HKEffect.setCurrentDoorState
        HKCurrentDoorState.CurrentDoorStateOpen] :=
  ((homekit_adapter_stateless hkCfg0 hkCfg0.topicStatus "X" 5).1 rfl).1
